import Mathlib

/-!
Shallow embedding of the EduParent roleplay engine (backend `app/roleplay/…`):
the evaluation models (`models/evaluation.py`), the game state
(`models/game_state.py`), the two AI agents (`agents/evaluator.py`,
`agents/teen_responder.py`), the scenario loader (`scenarios/loader.py`),
the game engine (`services/game_engine.py`) and the HTTP session layer
(`api/roleplay.py`).

Generative-model invocations are modelled as oracle inputs: an agent call
either raises (any exception, including JSON-parse and pydantic-validation
failures) or returns a typed record of the parsed JSON fields.  Python `int`
is modelled as `Int` (scores may be arbitrary integers in a parsed model
reply), Python `float` division as exact `Rat` arithmetic, and Python dicts
as association lists with first-insertion key order.
-/

namespace EduParent

/-- Parsed evaluation result, from `models/evaluation.py::EvaluationResult`. -/
structure EvaluationResult where
  tone_score : Int
  approach_score : Int
  respect_score : Int
  total_score : Int
  feedback : String
  passed : Bool
deriving DecidableEq

/-- Multi-round evaluation result, from
`models/evaluation.py::MultiRoundEvaluationResult`.  `criteria_scores` and
`detailed_feedback` are Python dicts, kept as association lists in key
insertion order. -/
structure MultiRoundEvaluationResult where
  criteria_scores : List (String × Int)
  total_score : Int
  max_possible_score : Int
  feedback : String
  detailed_feedback : List (String × String)
  passed : Bool
  round_number : Nat
deriving DecidableEq

/-- Record of one resolved round, from `models/evaluation.py::RoundResult`. -/
structure RoundResult where
  round_number : Nat
  parent_response : String
  child_response : String
  evaluation : MultiRoundEvaluationResult
  attempts_used : Nat
  completed_at : Option String
deriving DecidableEq

/-- Completion summary, from `models/evaluation.py::ScenarioCompletion`.
`overall_score` is a Python float computed by one exact division; it is
modelled as a rational. -/
structure ScenarioCompletion where
  scenario_name : String
  rounds_completed : Nat
  total_rounds : Nat
  rounds_passed : Nat
  overall_score : Rat
  mastery_achieved : Bool
  badges_earned : List String
  communication_techniques_unlocked : List String
deriving DecidableEq

/-- Teen reply, from `models/evaluation.py::TeenResponse`. -/
structure TeenResponse where
  response : String
  emotion : String
deriving DecidableEq

/-- Relevant fields of the JSON object parsed from the single-round
evaluator model reply.  `EvaluationResult.from_dict` reads every field with
`data[...]`, so a reply missing any of them raises `KeyError` and is an
agent failure; a reply that reached `from_dict` successfully therefore has
all six fields. -/
structure SREvalData where
  tone_score : Int
  approach_score : Int
  respect_score : Int
  total_score : Int
  feedback : String
  passed : Bool
deriving DecidableEq

/-- Relevant fields of the JSON object parsed from the multi-round evaluator
model reply.  `total_score` and `feedback` are read with `data[...]` inside
`MultiRoundEvaluationResult.from_dict` (absence raises `KeyError`, caught as
an agent failure), the rest with `data.get(...)` and a default; `passed` and
`max_possible_score` may carry arbitrary model-chosen values, which the code
overwrites. -/
structure MREvalData where
  criteria_scores : List (String × Int)
  total_score : Option Int
  max_possible_score : Option Int
  feedback : Option String
  detailed_feedback : List (String × String)
  passed : Option Bool
deriving DecidableEq

/-- Outcome of one generative-model call in the multi-round evaluator: either
any exception along the run/clean/parse path (with the exception text), or a
successfully parsed JSON object. -/
inductive MRAgentOutcome where
  | failure (err : String)
  | success (data : MREvalData)
deriving DecidableEq

/-- Outcome of one generative-model call in the single-round evaluator. -/
inductive SRAgentOutcome where
  | failure (err : String)
  | success (data : SREvalData)
deriving DecidableEq

/-- Parsed fields of the teen-responder model reply; `response` is read with
`data['response']` (absence is an agent failure), `emotion` with
`data.get('emotion', 'neutral')`. -/
structure TeenData where
  response : String
  emotion : Option String
deriving DecidableEq

/-- Outcome of one generative-model call in the teen responder. -/
inductive TeenAgentOutcome where
  | failure
  | success (data : TeenData)
deriving DecidableEq

namespace EvaluationAgent

/-- Fallback single-round evaluation, from
`evaluator.py::EvaluationAgent._create_fallback_evaluation`. -/
def create_fallback_evaluation (error : String) (language : String) :
    EvaluationResult :=
  let feedback :=
    if language = "en" then
      "Evaluation system error, please retry. Error: " ++ error
    else
      "評估系統出現錯誤，請重試。錯誤：" ++ error
  { tone_score := 2, approach_score := 2, respect_score := 2,
    total_score := 6, feedback := feedback, passed := false }

/-- Single-round evaluation, from `evaluator.py::EvaluationAgent.evaluate`.
The model call is the oracle `outcome`; on success the parsed JSON is passed
to `EvaluationResult.from_dict`, which copies every field verbatim. -/
def evaluate (outcome : SRAgentOutcome) (language : String) :
    EvaluationResult :=
  match outcome with
  | .failure err => create_fallback_evaluation err language
  | .success d =>
      { tone_score := d.tone_score, approach_score := d.approach_score,
        respect_score := d.respect_score, total_score := d.total_score,
        feedback := d.feedback, passed := d.passed }

/-- Fixed per-criterion maximum table from
`evaluator.py::EvaluationAgent.evaluate_multi_round` (`max_scores`). -/
def max_scores : List (String × Int) :=
  [("emotion_acknowledgment", 3), ("tone_empathy", 2), ("solution_approach", 3),
   ("fear_validation", 4), ("concrete_reassurance", 3), ("collaborative_approach", 3),
   ("transition_strategy", 4), ("child_agency", 3), ("follow_through_clarity", 3)]

/-- Lookup in the maximum table: `max_scores.get(criterion, 3)`. -/
def maxScoreFor (criterion : String) : Int :=
  (max_scores.lookup criterion).getD 3

/-- Key set of a Python dict comprehension over a list, in first-insertion
order (later duplicates update the existing key, not its position). -/
def pyDictKeys (l : List String) : List String :=
  l.foldl (fun ks c => if c ∈ ks then ks else ks ++ [c]) []

/-- Fallback multi-round evaluation, from
`evaluator.py::EvaluationAgent._create_fallback_multi_round_evaluation`:
a score of 2 per (distinct) criterion, `total_score` the sum of the dict's
values, `max_possible_score = len(criteria) * 3`, `passed = False`, and one
fallback feedback entry per (distinct) criterion in the requested locale. -/
def create_fallback_multi_round_evaluation (error : String)
    (criteria : List String) (round_number : Nat) (language : String) :
    MultiRoundEvaluationResult :=
  let criteria_scores := (pyDictKeys criteria).map (fun c => (c, (2 : Int)))
  let total_score := (criteria_scores.map (·.2)).sum
  let feedback :=
    if language = "en" then
      "Evaluation system error, please retry. Error: " ++ error
    else
      "評估系統出現錯誤，請重試。錯誤：" ++ error
  let detailed_feedback :=
    if language = "en" then
      (pyDictKeys criteria).map (fun c => (c, "System error"))
    else
      (pyDictKeys criteria).map (fun c => (c, "系統錯誤"))
  { criteria_scores := criteria_scores, total_score := total_score,
    max_possible_score := criteria.length * 3, feedback := feedback,
    detailed_feedback := detailed_feedback, passed := false,
    round_number := round_number }

/-- Multi-round evaluation, from
`evaluator.py::EvaluationAgent.evaluate_multi_round`.  On a parsed reply the
code recomputes `eval_data["max_possible_score"]` from `max_scores` (default
3 per unknown criterion) and `eval_data["passed"] =
eval_data.get("total_score", 0) >= threshold`, then builds the result via
`MultiRoundEvaluationResult.from_dict`, which raises (→ fallback) when
`total_score` or `feedback` is absent.  Any failure anywhere in the `try`
block lands in the fallback. -/
def evaluate_multi_round (outcome : MRAgentOutcome) (criteria : List String)
    (threshold : Int) (round_number : Nat) (language : String) :
    MultiRoundEvaluationResult :=
  match outcome with
  | .failure err =>
      create_fallback_multi_round_evaluation err criteria round_number language
  | .success d =>
      let max_possible := (criteria.map maxScoreFor).sum
      let passed : Bool := decide ((d.total_score.getD 0) ≥ threshold)
      match d.total_score, d.feedback with
      | some ts, some fb =>
          { criteria_scores := d.criteria_scores, total_score := ts,
            max_possible_score := max_possible, feedback := fb,
            detailed_feedback := d.detailed_feedback, passed := passed,
            round_number := round_number }
      | _, _ =>
          create_fallback_multi_round_evaluation "KeyError" criteria
            round_number language

end EvaluationAgent

namespace TeenResponderAgent

/-- Fallback teen reply, from
`teen_responder.py::TeenResponderAgent._create_fallback_response`. -/
def create_fallback_response (score : Int) (language : String) : TeenResponse :=
  if language = "en" then
    if score ≥ 7 then
      { response := "Okay, I understand what you're saying", emotion := "cooperative" }
    else
      { response := "I don't want to talk about this right now", emotion := "defensive" }
  else
    if score ≥ 7 then
      { response := "好啦，我明白你嘅意思", emotion := "cooperative" }
    else
      { response := "我而家唔想講呢啲", emotion := "defensive" }

/-- Teen reply generation, from `teen_responder.py::TeenResponderAgent.respond`.
On success the parsed JSON goes through `TeenResponse.from_dict`, which
defaults a missing `emotion` to `"neutral"`. -/
def respond (outcome : TeenAgentOutcome) (score : Int) (language : String) :
    TeenResponse :=
  match outcome with
  | .failure => create_fallback_response score language
  | .success d =>
      { response := d.response, emotion := d.emotion.getD "neutral" }

end TeenResponderAgent

/-- Game session state, from `models/game_state.py::GameState`, with the
pydantic field defaults recorded in `GameState.default`. -/
structure GameState where
  scenario_title : String
  scenario_background : String
  teen_opening : String
  is_multi_round : Bool
  language : String
  parent_response : String
  attempts : Nat
  max_attempts : Nat
  current_round : Nat
  max_rounds : Nat
  round_attempts : Nat
  max_round_attempts : Nat
  round_history : List RoundResult
  evaluation : Option EvaluationResult
  multi_round_evaluation : Option MultiRoundEvaluationResult
  teen_response : Option String
  game_completed : Bool
  final_score : Option Int
  scenario_completion : Option ScenarioCompletion
deriving DecidableEq

namespace GameState

/-- Field defaults of the pydantic model `GameState`. -/
def default : GameState :=
  { scenario_title := "", scenario_background := "", teen_opening := "",
    is_multi_round := false, language := "zh-HK", parent_response := "",
    attempts := 0, max_attempts := 3, current_round := 1, max_rounds := 3,
    round_attempts := 0, max_round_attempts := 3, round_history := [],
    evaluation := none, multi_round_evaluation := none, teen_response := none,
    game_completed := false, final_score := none, scenario_completion := none }

/-- From `GameState.can_retry`. -/
def can_retry (gs : GameState) : Bool :=
  if gs.is_multi_round then
    gs.round_attempts < gs.max_round_attempts && !gs.game_completed
  else
    gs.attempts < gs.max_attempts && !gs.game_completed

/-- From `GameState.increment_attempt`. -/
def increment_attempt (gs : GameState) : GameState :=
  if gs.is_multi_round then { gs with round_attempts := gs.round_attempts + 1 }
  else { gs with attempts := gs.attempts + 1 }

/-- From `GameState.advance_to_next_round`. -/
def advance_to_next_round (gs : GameState) : GameState :=
  if gs.is_multi_round && gs.current_round < gs.max_rounds then
    { gs with current_round := gs.current_round + 1, round_attempts := 0,
              parent_response := "", teen_response := none,
              multi_round_evaluation := none }
  else gs

/-- From `GameState.is_passed`. -/
def is_passed (gs : GameState) : Bool :=
  if gs.is_multi_round then
    match gs.multi_round_evaluation with
    | some e => e.passed
    | none => false
  else
    match gs.evaluation with
    | some e => e.passed
    | none => false

/-- From `GameState.can_advance_round`. -/
def can_advance_round (gs : GameState) : Bool :=
  gs.is_multi_round && gs.current_round < gs.max_rounds &&
    (gs.is_passed || gs.round_attempts ≥ gs.max_round_attempts)

/-- From `GameState.complete_game` (`final_score` defaults to `None`). -/
def complete_game (gs : GameState) (final_score : Option Int) : GameState :=
  { gs with game_completed := true, final_score := final_score }

end GameState

/-- One round of a multi-round scenario, from `loader.py::RoundData`. -/
structure RoundData where
  round : Int
  child_state : String
  child_prompt : String
  child_prompt_zh : Option String
  evaluation_criteria : List String
  pass_threshold : Int
deriving DecidableEq

/-- From `RoundData.get_child_prompt`; Python truthiness makes an empty
`child_prompt_zh` fall back to `child_prompt`. -/
def RoundData.get_child_prompt (rd : RoundData) (language : String) : String :=
  if language = "zh-HK" && rd.child_prompt_zh.getD "" ≠ "" then
    rd.child_prompt_zh.getD ""
  else rd.child_prompt

/-- A parsed scenario document, from `loader.py::Scenario`. -/
structure Scenario where
  case_name : String
  case_name_zh : Option String
  background_and_instructions : String
  background_and_instructions_zh : Option String
  child_prompts : List String
  multi_round : Bool
  rounds : Option (List RoundData)
deriving DecidableEq

namespace Scenario

/-- From `Scenario.get_title` (empty `case_name_zh` is falsy). -/
def get_title (s : Scenario) (language : String) : String :=
  if language = "zh-HK" && s.case_name_zh.getD "" ≠ "" then s.case_name_zh.getD ""
  else s.case_name

/-- From `Scenario.get_background`. -/
def get_background (s : Scenario) (language : String) : String :=
  if language = "zh-HK" && s.background_and_instructions_zh.getD "" ≠ "" then
    s.background_and_instructions_zh.getD ""
  else s.background_and_instructions

/-- From the property `Scenario.is_multi_round`:
`self.multi_round and self.rounds is not None`. -/
def is_multi_round (s : Scenario) : Bool :=
  s.multi_round && s.rounds.isSome

/-- From the property `Scenario.max_rounds`. -/
def max_rounds (s : Scenario) : Nat :=
  if s.is_multi_round then (s.rounds.getD []).length else 1

/-- From `Scenario.get_teen_opening` (an empty `rounds` list is falsy, as is
an empty `child_prompts` list). -/
def get_teen_opening (s : Scenario) (language : String) : String :=
  if s.multi_round && s.rounds.getD [] ≠ [] then
    match s.rounds.getD [] with
    | rd :: _ => rd.get_child_prompt language
    | [] => ""
  else
    match s.child_prompts with
    | [] => ""
    | p :: rest =>
        if language = "zh-HK" && rest.length + 1 > 1 then rest.headD p else p

/-- From `Scenario.get_round_data` (1-indexed; returns `None` when
`not self.is_multi_round or not self.rounds` — an empty list is falsy — or
when the index is out of range; `round_number - 1 < 0` fails the range
check for `round_number = 0`). -/
def get_round_data (s : Scenario) (round_number : Nat) : Option RoundData :=
  if s.is_multi_round && s.rounds.getD [] ≠ [] && 1 ≤ round_number then
    (s.rounds.getD [])[round_number - 1]?
  else none

end Scenario

/-- From `config.py::GameConfig.MAX_ATTEMPTS` at its default (the `3` of
`int(os.getenv('MAX_ATTEMPTS', '3'))`). -/
def GameConfig.MAX_ATTEMPTS : Nat := 3

/-- The scenarios directory as the loader sees it: whether it exists, the
`os.listdir` file listing, and for each scenario name the result of opening
and validating `<name>.yaml` (`none` for a YAML or pydantic failure). -/
structure ScenarioDir where
  dirExists : Bool
  files : List String
  parse : String → Option Scenario

namespace ScenarioLoader

/-- From `loader.py::ScenarioLoader.load_scenario`: the file
`<scenario_name>.yaml` must exist, then parsing may still fail. -/
def load_scenario (d : ScenarioDir) (scenario_name : String) : Option Scenario :=
  if (scenario_name ++ ".yaml") ∈ d.files then d.parse scenario_name else none

/-- Structural prefix test on character lists. -/
def listPrefixOf : List Char → List Char → Bool
  | [], _ => true
  | _ :: _, [] => false
  | a :: as, b :: bs => a = b && listPrefixOf as bs

/-- Python `str.endswith(suffix)`: suffix test by code points. -/
def strEndsWith (f suffix : String) : Bool :=
  listPrefixOf suffix.toList.reverse f.toList.reverse

/-- A directory entry the loader lists: `filename.endswith('.yaml') or
filename.endswith('.yml')`. -/
def isYamlFile (f : String) : Bool :=
  strEndsWith f ".yaml" || strEndsWith f ".yml"

/-- Lexicographic comparison of character lists by code point, structurally
recursive. -/
def charListLe : List Char → List Char → Bool
  | [], _ => true
  | _ :: _, [] => false
  | a :: as, b :: bs => if a = b then charListLe as bs else decide (a < b)

/-- Python string `<=`: code-point lexicographic order (the order
`sorted(...)` uses). -/
def pyStrLe (a b : String) : Bool :=
  charListLe a.toList b.toList

/-- Python `os.path.splitext(f)[0]`: drop the extension at the last dot,
unless every character before that dot is a dot (e.g. `".yaml"` keeps its
name whole). -/
def splitextStem (f : String) : String :=
  let cs := f.toList
  let cands := (List.range cs.length).filter
    (fun i => cs.getD i ' ' = '.' && (cs.take i).any (· ≠ '.'))
  match cands.getLast? with
  | some i => String.mk (cs.take i)
  | none => f

/-- From `loader.py::ScenarioLoader.list_scenarios`: stems of the `.yaml` /
`.yml` entries, with `"school_dropoff_anxiety"` filtered out
("Temporarily hide school_dropoff_anxiety scenario"), then `sorted(...)`. -/
def list_scenarios (d : ScenarioDir) : List String :=
  if d.dirExists then
    List.insertionSort (fun a b => pyStrLe a b = true)
      ((((d.files.filter isYamlFile).map splitextStem).filter
        (· ≠ "school_dropoff_anxiety")))
  else []

/-- From `loader.py::ScenarioLoader.get_default_scenario`: load the first
listed name, `None` when the listing is empty. -/
def get_default_scenario (d : ScenarioDir) : Option Scenario :=
  match list_scenarios d with
  | [] => none
  | n :: _ => load_scenario d n

end ScenarioLoader

/-- Oracle inputs consumed by one pass through
`game_engine.py::RoleplayGameEngine.process_parent_response`: the outcome of
the (at most one) evaluator call on each path, the outcome of the
teen-responder call, and `datetime.now().isoformat()`. -/
structure SubmitOracle where
  srEval : SRAgentOutcome
  mrEval : MRAgentOutcome
  teen : TeenAgentOutcome
  now : String

/-- Structural substring search over character lists (Python `in`): the
needle is a prefix of some suffix of the haystack. -/
def listContainsSub : List Char → List Char → Bool
  | l, pat =>
    if ScenarioLoader.listPrefixOf pat l then true
    else
      match l with
      | [] => false
      | _ :: rest => listContainsSub rest pat

/-- Substring test (Python `in` on strings). -/
def strContainsSub (s pat : String) : Bool :=
  listContainsSub s.toList pat.toList

/-- Python `str.lower()` restricted to the ASCII range (the only case
conversion these titles need): lowercase every character. -/
def strToLower (s : String) : String :=
  String.mk (s.toList.map Char.toLower)

/-- Python `str.replace(old, new)` for the single-character patterns the
engine uses (`" " → "_"` and `"-" → "_"`): replace every matching
character. -/
def replaceChar (s : String) (pat rep : Char) : String :=
  String.mk (s.toList.map (fun c => if c = pat then rep else c))

namespace RoleplayGameEngine

/-- The title-to-filename heuristic of
`game_engine.py::RoleplayGameEngine.process_parent_response` (repeated in
`advance_to_next_round`): two special-cased substrings checked on the
lowercased title, else `title.replace(" ", "_").lower().replace("-", "_")`. -/
def scenario_name_for_title (title : String) : String :=
  if strContainsSub (strToLower title) "school drop" then
    "school_dropoff_anxiety"
  else if strContainsSub (strToLower title) "messy" then "messy_room"
  else replaceChar (strToLower (replaceChar title ' ' '_')) '-' '_' 

/-- From `game_engine.py::RoleplayGameEngine.create_game_state`.  A present
but empty `scenario_name` is falsy in Python and selects the default
scenario. -/
def create_game_state (d : ScenarioDir) (scenario_name : Option String)
    (language : String) : Option GameState :=
  match (if scenario_name.getD "" ≠ "" then
      ScenarioLoader.load_scenario d (scenario_name.getD "")
    else ScenarioLoader.get_default_scenario d) with
  | none => none
  | some scenario =>
      some { GameState.default with
        scenario_title := scenario.get_title language,
        scenario_background := scenario.get_background language,
        teen_opening := scenario.get_teen_opening language,
        max_attempts := GameConfig.MAX_ATTEMPTS,
        is_multi_round := scenario.is_multi_round,
        max_rounds := if scenario.is_multi_round then scenario.max_rounds else 1,
        language := language }

/-- From `game_engine.py::RoleplayGameEngine._process_single_round_response`. -/
def process_single_round_response (o : SubmitOracle) (gs : GameState) :
    GameState :=
  let evaluation := EvaluationAgent.evaluate o.srEval gs.language
  let gs := { gs with evaluation := some evaluation }
  let teen := TeenResponderAgent.respond o.teen evaluation.total_score gs.language
  let gs := { gs with teen_response := some teen.response }
  if evaluation.passed then gs.complete_game (some evaluation.total_score)
  else if !gs.can_retry then gs.complete_game none
  else gs

/-- Python `int()` applied to a (non-negative or negative) float/rational:
truncation toward zero. -/
def pyInt (q : Rat) : Int :=
  if q < 0 then q.ceil else q.floor

/-- From `game_engine.py::RoleplayGameEngine._create_scenario_completion`. -/
def create_scenario_completion (gs : GameState) (scenario : Scenario) :
    ScenarioCompletion :=
  let passedRounds := gs.round_history.filter (fun r => r.evaluation.passed)
  let rounds_passed := passedRounds.length
  let total_score := (passedRounds.map (fun r => r.evaluation.total_score)).sum
  let avg_score : Rat :=
    if rounds_passed > 0 then (total_score : Rat) / (rounds_passed : Rat) else 0
  let badges :=
    (if rounds_passed = gs.max_rounds then ["scenario_mastery"] else []) ++
    (if avg_score ≥ 9 then ["expert_communicator"] else [])
  let techniques :=
    if rounds_passed = gs.max_rounds then ["separation_anxiety_management"] else []
  { scenario_name := scenario.case_name,
    rounds_completed := gs.round_history.length,
    total_rounds := gs.max_rounds, rounds_passed := rounds_passed,
    overall_score := avg_score,
    mastery_achieved := decide (rounds_passed = gs.max_rounds),
    badges_earned := badges, communication_techniques_unlocked := techniques }

/-- From `game_engine.py::RoleplayGameEngine._process_multi_round_response`.
When `get_round_data` yields nothing the state is returned as is (with the
attempt counter already incremented by the caller). -/
def process_multi_round_response (o : SubmitOracle) (gs : GameState)
    (parent_response : String) (scenario : Scenario) : GameState :=
  match scenario.get_round_data gs.current_round with
  | none => gs
  | some round_data =>
      let evaluation := EvaluationAgent.evaluate_multi_round o.mrEval
        round_data.evaluation_criteria round_data.pass_threshold
        gs.current_round gs.language
      let gs := { gs with multi_round_evaluation := some evaluation }
      let teen := TeenResponderAgent.respond o.teen evaluation.total_score
        gs.language
      let gs := { gs with teen_response := some teen.response }
      if evaluation.passed || gs.round_attempts ≥ gs.max_round_attempts then
        let round_result : RoundResult :=
          { round_number := gs.current_round, parent_response := parent_response,
            child_response := teen.response, evaluation := evaluation,
            attempts_used := gs.round_attempts, completed_at := some o.now }
        let gs := { gs with round_history := gs.round_history ++ [round_result] }
        if gs.current_round ≥ gs.max_rounds then
          let completion := create_scenario_completion gs scenario
          let gs := { gs with scenario_completion := some completion }
          gs.complete_game (some (pyInt completion.overall_score))
        else
          gs.advance_to_next_round
      else gs

/-- From `game_engine.py::RoleplayGameEngine.process_parent_response`: store
the parent response, increment the attempt counter, map the title to a
scenario name, then dispatch — a failed scenario load falls back to the
single-round path even for multi-round states. -/
def process_parent_response (d : ScenarioDir) (o : SubmitOracle)
    (gs : GameState) (parent_response : String) : GameState :=
  let gs := { gs with parent_response := parent_response }
  let gs := gs.increment_attempt
  let scenario_name := scenario_name_for_title gs.scenario_title
  match ScenarioLoader.load_scenario d scenario_name with
  | none => process_single_round_response o gs
  | some scenario =>
      if gs.is_multi_round then
        process_multi_round_response o gs parent_response scenario
      else process_single_round_response o gs

end RoleplayGameEngine

/-- The in-memory session map `api/roleplay.py::game_sessions`, a Python
dict modelled as an association list in key insertion order. -/
abbrev SessionMap := List (String × GameState)

/-- Python dict assignment `m[k] = v`: update in place when the key exists,
else append. -/
def dictInsert (m : SessionMap) (k : String) (v : GameState) : SessionMap :=
  match m with
  | [] => [(k, v)]
  | (k0, v0) :: rest =>
      if k0 = k then (k0, v) :: rest else (k0, v0) :: dictInsert rest k v

/-- Caller-visible failures of the roleplay endpoints: the 404 "Game session
not found" / "Scenario not found" and the 400 "Game already completed". -/
inductive ApiError where
  | notFound
  | alreadyCompleted
deriving DecidableEq

namespace Api

/-- From `api/roleplay.py::start_game`: create a state, assign the session id
`f"session_{len(game_sessions)}"`, store it.  Returns the updated map, the
assigned id and the created state. -/
def start_game (d : ScenarioDir) (sessions : SessionMap)
    (scenario_name : Option String) (language : String) :
    Except ApiError (SessionMap × String × GameState) :=
  match RoleplayGameEngine.create_game_state d scenario_name language with
  | none => .error .notFound
  | some gs =>
      let session_id := "session_" ++ toString sessions.length
      .ok (dictInsert sessions session_id gs, session_id, gs)

/-- From `api/roleplay.py::submit_response`: unknown session → 404; completed
session → 400 before anything touches the state; otherwise process the
response and store the updated state. -/
def submit_response (d : ScenarioDir) (o : SubmitOracle)
    (sessions : SessionMap) (session_id : String) (parent_response : String) :
    Except ApiError (SessionMap × GameState) :=
  match sessions.lookup session_id with
  | none => .error .notFound
  | some gs =>
      if gs.game_completed then .error .alreadyCompleted
      else
        let updated := RoleplayGameEngine.process_parent_response d o gs
          parent_response
        .ok (dictInsert sessions session_id updated, updated)

/-- From `api/roleplay.py::end_game`: delete the session. -/
def end_game (sessions : SessionMap) (session_id : String) :
    Except ApiError SessionMap :=
  match sessions.lookup session_id with
  | none => .error .notFound
  | some _ => .ok (sessions.filter (fun p => p.1 ≠ session_id))

end Api

/-- The effect of one `POST /game/respond/{id}` on that session's state: a
completed session is left unchanged (the endpoint rejects the call before
mutating anything), otherwise the engine processes the response. -/
def submitStep (d : ScenarioDir) (step : SubmitOracle × String)
    (gs : GameState) : GameState :=
  if gs.game_completed then gs
  else RoleplayGameEngine.process_parent_response d step.1 gs step.2

/-- A session's state after a sequence of submissions. -/
def runSubmits (d : ScenarioDir) (steps : List (SubmitOracle × String))
    (gs : GameState) : GameState :=
  steps.foldl (fun g s => submitStep d s g) gs

/-! Invariants used to state the claims about the submit loop. -/

/-- The attempt-budget invariants of spec §8. -/
def AttemptCapsInv (gs : GameState) : Prop :=
  gs.round_attempts ≤ gs.max_round_attempts ∧ gs.attempts ≤ gs.max_attempts

/-- Strengthening of `AttemptCapsInv` preserved by the submit loop: a live
(not yet completed) session still has strict budget left. -/
def StrongAttemptInv (gs : GameState) : Prop :=
  AttemptCapsInv gs ∧ 1 ≤ gs.max_round_attempts ∧ 1 ≤ gs.max_attempts ∧
  (gs.game_completed = false →
    gs.round_attempts < gs.max_round_attempts ∧ gs.attempts < gs.max_attempts)

/-- A submission against `gs` does not take the silent early-return of
`_process_multi_round_response` (`if not round_data: return game_state`):
whenever the title-mapped scenario loads for a multi-round state, it has
round data for the current round. -/
def roundDataOk (d : ScenarioDir) (gs : GameState) : Prop :=
  gs.is_multi_round = true →
  ∀ s, ScenarioLoader.load_scenario d
      (RoleplayGameEngine.scenario_name_for_title gs.scenario_title) = some s →
    s.get_round_data gs.current_round ≠ none

/-- Round-history invariant preserved by the submit loop: the current round
is within range, resolved-round numbers are strictly increasing, a live
session's history sits strictly below the current round, and the history
never outgrows `max_rounds`. -/
def RoundHistoryInv (gs : GameState) : Prop :=
  1 ≤ gs.current_round ∧ gs.current_round ≤ gs.max_rounds ∧
  List.Sorted (· < ·) (gs.round_history.map RoundResult.round_number) ∧
  (gs.game_completed = false →
    ∀ r ∈ gs.round_history, r.round_number < gs.current_round) ∧
  gs.round_history.length ≤ gs.max_rounds ∧
  (gs.game_completed = false → gs.round_history.length + 1 ≤ gs.current_round)

/-! Concrete fixtures used by counterexamples and witnesses. -/

/-- A loadable scenario document claiming to be multi-round while carrying an
empty round list (`multi_round: true`, `rounds: []` validates fine against
`loader.py::Scenario`). -/
def weirdScenario : Scenario :=
  { case_name := "Weird One", case_name_zh := none,
    background_and_instructions := "bg", background_and_instructions_zh := none,
    child_prompts := [], multi_round := true, rounds := some [] }

/-- A scenarios directory holding only `weird_one.yaml`. -/
def weirdDir : ScenarioDir :=
  { dirExists := true, files := ["weird_one.yaml"],
    parse := fun n => if n = "weird_one" then some weirdScenario else none }

/-- The state `create_game_state` builds from `weirdScenario`
(`is_multi_round = true`, `max_rounds = 0`). -/
def weirdStart : GameState :=
  { GameState.default with
    scenario_title := "Weird One", scenario_background := "bg",
    teen_opening := "", is_multi_round := true, max_rounds := 0,
    language := "en" }

/-- An oracle where every agent call fails. -/
def oFail : SubmitOracle :=
  { srEval := .failure "e", mrEval := .failure "e", teen := .failure, now := "t" }

/-- A single-round scenario titled "Alpha". -/
def scAlpha : Scenario :=
  { case_name := "Alpha", case_name_zh := none,
    background_and_instructions := "bg", background_and_instructions_zh := none,
    child_prompts := ["hello"], multi_round := false, rounds := none }

/-- A single-round scenario titled "Beta". -/
def scBeta : Scenario :=
  { scAlpha with case_name := "Beta" }

/-- A scenarios directory with the two single-round scenarios. -/
def alphaDir : ScenarioDir :=
  { dirExists := true, files := ["alpha.yaml", "beta.yaml"],
    parse := fun n =>
      if n = "alpha" then some scAlpha
      else if n = "beta" then some scBeta else none }

/-- The state created from `scAlpha`. -/
def gsAlpha : GameState :=
  { GameState.default with
    scenario_title := "Alpha", scenario_background := "bg",
    teen_opening := "hello", is_multi_round := false, max_rounds := 1,
    language := "en" }

/-- The state created from `scBeta`. -/
def gsBeta : GameState :=
  { gsAlpha with scenario_title := "Beta" }

/-- A parsed multi-round model reply with a self-contradictory `passed` and
an inflated `max_possible_score`, both of which the code must discard. -/
def mrReplySample : MREvalData :=
  { criteria_scores := [("fear_validation", 3), ("concrete_reassurance", 3),
      ("collaborative_approach", 2)],
    total_score := some 8, max_possible_score := some 99,
    feedback := some "good", detailed_feedback := [], passed := some false }

/-- A parsed single-round model reply whose `total_score` is not the rubric
sum and whose `passed` contradicts the threshold rule. -/
def srReplyBad : SREvalData :=
  { tone_score := 0, approach_score := 0, respect_score := 0,
    total_score := 3, feedback := "ok", passed := true }

/-- A completed session state. -/
def gsDone : GameState :=
  { gsAlpha with game_completed := true }

/-- A passing multi-round evaluation for round 1 with score 9. -/
def mrEvalPass : MultiRoundEvaluationResult :=
  { criteria_scores := [("fear_validation", 4)], total_score := 9,
    max_possible_score := 10, feedback := "f", detailed_feedback := [],
    passed := true, round_number := 1 }

/-- A failing multi-round evaluation for round 2 with score 3. -/
def mrEvalFail : MultiRoundEvaluationResult :=
  { mrEvalPass with total_score := 3, passed := false, round_number := 2 }

/-- A resolved round 1. -/
def rrOne : RoundResult :=
  { round_number := 1, parent_response := "p", child_response := "c",
    evaluation := mrEvalPass, attempts_used := 1, completed_at := some "t" }

/-- A resolved round 2. -/
def rrTwo : RoundResult :=
  { rrOne with round_number := 2, evaluation := mrEvalFail }

/-- A finished two-round session whose first round passed and second failed. -/
def gsHist : GameState :=
  { GameState.default with
    is_multi_round := true, max_rounds := 2, current_round := 2,
    round_history := [rrOne, rrTwo], game_completed := true }

/-- Round 1 of the consistent multi-round fixture. -/
def rdOne : RoundData :=
  { round := 1, child_state := "anxious", child_prompt := "cp1",
    child_prompt_zh := none, evaluation_criteria := ["fear_validation"],
    pass_threshold := 7 }

/-- Round 2 of the consistent multi-round fixture. -/
def rdTwo : RoundData :=
  { rdOne with
    round := 2, child_prompt := "cp2",
    evaluation_criteria := ["transition_strategy"] }

/-- A two-round scenario whose title maps back to its own file name. -/
def scMulti : Scenario :=
  { case_name := "Messy Room", case_name_zh := none,
    background_and_instructions := "bg", background_and_instructions_zh := none,
    child_prompts := [], multi_round := true, rounds := some [rdOne, rdTwo] }

/-- A scenarios directory holding only `messy_room.yaml`. -/
def multiDir : ScenarioDir :=
  { dirExists := true, files := ["messy_room.yaml"],
    parse := fun n => if n = "messy_room" then some scMulti else none }

/-- The state `create_game_state` builds from `scMulti`. -/
def gsMulti : GameState :=
  { GameState.default with
    scenario_title := "Messy Room", scenario_background := "bg",
    teen_opening := "cp1", is_multi_round := true, max_rounds := 2,
    language := "en" }

/-- An oracle whose multi-round evaluation parses with a passing score. -/
def oPass : SubmitOracle :=
  { oFail with
    mrEval := .success
      { criteria_scores := [("fear_validation", 4)], total_score := some 9,
        max_possible_score := none, feedback := some "good",
        detailed_feedback := [], passed := none } }

/-- A directory in which `school_dropoff_anxiety.yaml` exists alongside
another scenario file. -/
def schoolDir : ScenarioDir :=
  { dirExists := true,
    files := ["school_dropoff_anxiety.yaml", "apple.yaml"],
    parse := fun _ => some scAlpha }

end EduParent

/-! Helper lemmas. -/

namespace EduParent

theorem pyDictKeys_go_mem (l : List String) (acc : List String) (a : String) :
    (a ∈ l.foldl (fun ks c => if c ∈ ks then ks else ks ++ [c]) acc) ↔
      a ∈ acc ∨ a ∈ l := by
  induction l generalizing acc with
  | nil => simp
  | cons c rest ih =>
      simp only [List.foldl_cons]
      rw [ih]
      by_cases hc : c ∈ acc
      · simp only [if_pos hc, List.mem_cons]
        constructor
        · rintro (h | h) <;> tauto
        · rintro (h | rfl | h) <;> tauto
      · simp only [if_neg hc, List.mem_append, List.mem_singleton,
          List.mem_cons]
        tauto

theorem mem_pyDictKeys {a : String} {l : List String} :
    a ∈ EvaluationAgent.pyDictKeys l ↔ a ∈ l := by
  unfold EvaluationAgent.pyDictKeys
  rw [pyDictKeys_go_mem]
  simp

theorem lookup_map_const {ks : List String} {a : String} (v : Int)
    (h : a ∈ ks) : (ks.map (fun c => (c, v))).lookup a = some v := by
  induction ks with
  | nil => cases h
  | cons k rest ih =>
      rcases List.mem_cons.mp h with rfl | h
      · simp [List.lookup]
      · by_cases hk : a = k
        · subst hk; simp [List.lookup]
        · simp only [List.map_cons, List.lookup]
          rw [show (a == k) = false from beq_eq_false_iff_ne.mpr hk]
          exact ih h

theorem sum_map_const_two (ks : List String) :
    ((ks.map (fun c => (c, (2 : Int)))).map (fun p => p.2)).sum =
      2 * ks.length := by
  induction ks with
  | nil => simp
  | cons k rest ih =>
      simp only [List.map_cons, List.sum_cons, ih, List.length_cons]
      push_cast
      ring

end EduParent

namespace EduParent

/-- C1: for every call to `evaluate_multi_round` whose model output parses
successfully (the parsed JSON has the `total_score` and `feedback` keys that
`from_dict` demands), the result's `max_possible_score` is the sum of the
fixed per-criterion maximum table over the supplied criteria (3 for unknown
criteria, via `maxScoreFor`), and `passed` holds iff the parsed
`total_score` is at least the caller-supplied threshold — whatever `passed`
or `max_possible_score` the model itself returned. -/
theorem evaluate_multi_round_recomputes_server_side
    (d : MREvalData) (criteria : List String) (threshold : Int)
    (round_number : Nat) (language : String) (ts : Int) (fb : String)
    (hts : d.total_score = some ts) (hfb : d.feedback = some fb) :
    (EvaluationAgent.evaluate_multi_round (.success d) criteria threshold
        round_number language).max_possible_score =
      (criteria.map EvaluationAgent.maxScoreFor).sum ∧
    ((EvaluationAgent.evaluate_multi_round (.success d) criteria threshold
        round_number language).passed = true ↔ threshold ≤ ts) ∧
    (EvaluationAgent.evaluate_multi_round (.success d) criteria threshold
        round_number language).total_score = ts := by
  simp only [EvaluationAgent.evaluate_multi_round, hts, hfb]
  refine ⟨by trivial, ?_, by trivial⟩
  simp [ge_iff_le]

/-- Witness for C1 at a concrete parsed reply whose own `passed` is `False`
and whose own `max_possible_score` is 99: both are discarded. -/
theorem evaluate_multi_round_recomputes_server_side_witness :
    (EvaluationAgent.evaluate_multi_round (.success mrReplySample)
        ["fear_validation", "concrete_reassurance", "collaborative_approach"]
        7 2 "en").max_possible_score =
      ((["fear_validation", "concrete_reassurance",
         "collaborative_approach"].map EvaluationAgent.maxScoreFor).sum) ∧
    ((EvaluationAgent.evaluate_multi_round (.success mrReplySample)
        ["fear_validation", "concrete_reassurance", "collaborative_approach"]
        7 2 "en").passed = true ↔ (7 : Int) ≤ 8) ∧
    (EvaluationAgent.evaluate_multi_round (.success mrReplySample)
        ["fear_validation", "concrete_reassurance", "collaborative_approach"]
        7 2 "en").total_score = 8 :=
  evaluate_multi_round_recomputes_server_side mrReplySample
    ["fear_validation", "concrete_reassurance", "collaborative_approach"]
    7 2 "en" 8 "good" rfl rfl

/-- C6: on an agent failure, `evaluate_multi_round` with the round-2 criteria
and threshold 7 returns a flat score of 2 per criterion, `total_score = 6`,
`passed = false` and exactly three per-criterion fallback feedback entries in
the requested locale; in general the fallback scores every (distinct)
criterion 2 and sums those scores into `total_score`. -/
theorem fallback_multi_round_flat_two :
    ((EvaluationAgent.evaluate_multi_round (.failure "boom")
        ["fear_validation", "concrete_reassurance", "collaborative_approach"]
        7 2 "en").total_score = 6 ∧
     (EvaluationAgent.evaluate_multi_round (.failure "boom")
        ["fear_validation", "concrete_reassurance", "collaborative_approach"]
        7 2 "en").passed = false ∧
     (EvaluationAgent.evaluate_multi_round (.failure "boom")
        ["fear_validation", "concrete_reassurance", "collaborative_approach"]
        7 2 "en").criteria_scores =
       [("fear_validation", 2), ("concrete_reassurance", 2),
        ("collaborative_approach", 2)] ∧
     (EvaluationAgent.evaluate_multi_round (.failure "boom")
        ["fear_validation", "concrete_reassurance", "collaborative_approach"]
        7 2 "en").detailed_feedback =
       [("fear_validation", "System error"),
        ("concrete_reassurance", "System error"),
        ("collaborative_approach", "System error")] ∧
     (EvaluationAgent.evaluate_multi_round (.failure "boom")
        ["fear_validation", "concrete_reassurance", "collaborative_approach"]
        7 2 "zh-HK").detailed_feedback =
       [("fear_validation", "系統錯誤"),
        ("concrete_reassurance", "系統錯誤"),
        ("collaborative_approach", "系統錯誤")]) ∧
    (∀ (err : String) (criteria : List String) (threshold : Int)
       (round_number : Nat) (language : String),
      (∀ c ∈ criteria,
        (EvaluationAgent.evaluate_multi_round (.failure err) criteria
          threshold round_number language).criteria_scores.lookup c =
            some 2) ∧
      (EvaluationAgent.evaluate_multi_round (.failure err) criteria threshold
          round_number language).total_score =
        ((EvaluationAgent.evaluate_multi_round (.failure err) criteria
          threshold round_number language).criteria_scores.map
            (fun p => p.2)).sum ∧
      (EvaluationAgent.evaluate_multi_round (.failure err) criteria threshold
          round_number language).total_score =
        2 * (EvaluationAgent.pyDictKeys criteria).length ∧
      (EvaluationAgent.evaluate_multi_round (.failure err) criteria threshold
          round_number language).passed = false ∧
      (EvaluationAgent.evaluate_multi_round (.failure err) criteria threshold
          round_number language).detailed_feedback.length =
        (EvaluationAgent.pyDictKeys criteria).length) := by
  constructor
  · exact ⟨by decide, by decide, by decide, by decide, by decide⟩
  · intro err criteria threshold round_number language
    refine ⟨?_, rfl, ?_, rfl, ?_⟩
    · intro c hc
      exact lookup_map_const 2 (mem_pyDictKeys.mpr hc)
    · exact sum_map_const_two (EvaluationAgent.pyDictKeys criteria)
    · simp only [EvaluationAgent.evaluate_multi_round,
        EvaluationAgent.create_fallback_multi_round_evaluation]
      split <;> simp

/-- C8 counterexample: a parsed single-round model reply with
`tone = approach = respect = 1` but `total_score = 3` and `passed = True` is
stored verbatim by `evaluate`, so the returned `EvaluationResult` has
`passed = true` despite `total_score < 7`, and its `total_score` differs
from the rubric sum. -/
theorem evaluate_trusts_model_totals_cex :
    (EvaluationAgent.evaluate (.success srReplyBad) "en").passed = true ∧
    (EvaluationAgent.evaluate (.success srReplyBad) "en").total_score < 7 ∧
    (EvaluationAgent.evaluate (.success srReplyBad) "en").total_score ≠
      (EvaluationAgent.evaluate (.success srReplyBad) "en").tone_score +
      (EvaluationAgent.evaluate (.success srReplyBad) "en").approach_score +
      (EvaluationAgent.evaluate (.success srReplyBad) "en").respect_score := by
  decide

/-- C8 amended: the fallback result satisfies the rubric identities
(`total_score` is the exact sum `tone + approach + respect` and `passed` iff
`total_score ≥ 7`), while on the success path `evaluate` copies all six
parsed fields verbatim from the model output, recomputing nothing. -/
theorem evaluate_fallback_rubric_success_verbatim :
    (∀ (err language : String),
      (EvaluationAgent.evaluate (.failure err) language).total_score =
        (EvaluationAgent.evaluate (.failure err) language).tone_score +
        (EvaluationAgent.evaluate (.failure err) language).approach_score +
        (EvaluationAgent.evaluate (.failure err) language).respect_score ∧
      ((EvaluationAgent.evaluate (.failure err) language).passed = true ↔
        7 ≤ (EvaluationAgent.evaluate (.failure err) language).total_score)) ∧
    (∀ (dd : SREvalData) (language : String),
      EvaluationAgent.evaluate (.success dd) language =
        { tone_score := dd.tone_score, approach_score := dd.approach_score,
          respect_score := dd.respect_score, total_score := dd.total_score,
          feedback := dd.feedback, passed := dd.passed }) := by
  refine ⟨fun err language => ⟨rfl, ?_⟩, fun dd language => rfl⟩
  simp [EvaluationAgent.evaluate, EvaluationAgent.create_fallback_evaluation]

end EduParent

namespace EduParent

/-- C4: a `submit` against a session whose `game_completed` flag is true is
rejected with the 400 "Game already completed" condition before anything
runs, and the session's `GameState` is left entirely unchanged. -/
theorem submit_on_completed_rejected
    (d : ScenarioDir) (o : SubmitOracle) (sessions : SessionMap)
    (session_id parent_response : String) (gs : GameState)
    (hlook : sessions.lookup session_id = some gs)
    (hdone : gs.game_completed = true) :
    Api.submit_response d o sessions session_id parent_response =
      .error .alreadyCompleted ∧
    submitStep d (o, parent_response) gs = gs := by
  constructor
  · simp [Api.submit_response, hlook, hdone]
  · simp [submitStep, hdone]

/-- Witness for C4: a stored completed session. -/
theorem submit_on_completed_rejected_witness :
    Api.submit_response alphaDir oFail [("session_0", gsDone)] "session_0"
      "hi" = .error .alreadyCompleted ∧
    submitStep alphaDir (oFail, "hi") gsDone = gsDone :=
  submit_on_completed_rejected alphaDir oFail [("session_0", gsDone)]
    "session_0" "hi" gsDone (by decide) (by decide)

/-- C9: `start_game` always assigns the id `"session_" + n` where `n` is the
current size of the in-memory session map; consequently the call sequence
start, start, end the first session, start hands the new session the id of
the still-live second session and overwrites that session's state (the final
map holds the Alpha state where the Beta state lived). -/
theorem start_game_session_id_collision :
    (∀ (d : ScenarioDir) (sessions : SessionMap) (nm : Option String)
       (lang : String) (m : SessionMap) (sid : String) (gs : GameState),
      Api.start_game d sessions nm lang = .ok (m, sid, gs) →
        sid = "session_" ++ toString sessions.length) ∧
    Api.start_game alphaDir [] (some "alpha") "en" =
      .ok ([("session_0", gsAlpha)], "session_0", gsAlpha) ∧
    Api.start_game alphaDir [("session_0", gsAlpha)] (some "beta") "en" =
      .ok ([("session_0", gsAlpha), ("session_1", gsBeta)], "session_1",
        gsBeta) ∧
    Api.end_game [("session_0", gsAlpha), ("session_1", gsBeta)]
      "session_0" = .ok [("session_1", gsBeta)] ∧
    Api.start_game alphaDir [("session_1", gsBeta)] (some "alpha") "en" =
      .ok ([("session_1", gsAlpha)], "session_1", gsAlpha) ∧
    gsAlpha ≠ gsBeta := by
  refine ⟨?_, rfl, rfl, rfl, rfl, by decide⟩
  intro d sessions nm lang m sid gs h
  unfold Api.start_game at h
  rcases hc : RoleplayGameEngine.create_game_state d nm lang with _ | g
  · rw [hc] at h; cases h
  · rw [hc] at h
    simp only [Except.ok.injEq, Prod.mk.injEq] at h
    exact h.2.1.symm

/-- Witness for C9's universal part at a concrete start call. -/
theorem start_game_session_id_collision_witness :
    "session_0" = "session_" ++ toString ([] : SessionMap).length :=
  start_game_session_id_collision.1 alphaDir [] (some "alpha") "en"
    [("session_0", gsAlpha)] "session_0" gsAlpha rfl

theorem charListLe_total (as bs : List Char) :
    ScenarioLoader.charListLe as bs = true ∨
      ScenarioLoader.charListLe bs as = true := by
  induction as generalizing bs with
  | nil => left; rfl
  | cons a as ih =>
      cases bs with
      | nil => right; rfl
      | cons b bs =>
          by_cases hab : a = b
          · subst hab
            rcases ih bs with h | h
            · left; simpa [ScenarioLoader.charListLe] using h
            · right; simpa [ScenarioLoader.charListLe] using h
          · rcases lt_or_gt_of_ne hab with h | h
            · left; simp [ScenarioLoader.charListLe, hab, h]
            · right; simp [ScenarioLoader.charListLe, Ne.symm hab, h]

theorem charListLe_trans (as bs cs : List Char)
    (hab : ScenarioLoader.charListLe as bs = true)
    (hbc : ScenarioLoader.charListLe bs cs = true) :
    ScenarioLoader.charListLe as cs = true := by
  induction as generalizing bs cs with
  | nil => rfl
  | cons a as ih =>
      cases bs with
      | nil => simp [ScenarioLoader.charListLe] at hab
      | cons b bs =>
          cases cs with
          | nil => simp [ScenarioLoader.charListLe] at hbc
          | cons c cs =>
              by_cases h1 : a = b <;> by_cases h2 : b = c
              · subst h1; subst h2
                simp only [ScenarioLoader.charListLe, if_pos rfl] at hab hbc ⊢
                exact ih bs cs hab hbc
              · subst h1
                simp only [ScenarioLoader.charListLe, if_pos rfl] at hab
                simp only [ScenarioLoader.charListLe, if_neg h2,
                  decide_eq_true_iff] at hbc
                simp [ScenarioLoader.charListLe, h2, hbc]
              · subst h2
                simp only [ScenarioLoader.charListLe, if_neg h1,
                  decide_eq_true_iff] at hab
                simp [ScenarioLoader.charListLe, h1, hab]
              · simp only [ScenarioLoader.charListLe, if_neg h1,
                  decide_eq_true_iff] at hab
                simp only [ScenarioLoader.charListLe, if_neg h2,
                  decide_eq_true_iff] at hbc
                have hac : a < c := lt_trans hab hbc
                simp [ScenarioLoader.charListLe, ne_of_lt hac, hac]

theorem pyStrLe_total (a b : String) :
    ScenarioLoader.pyStrLe a b = true ∨ ScenarioLoader.pyStrLe b a = true :=
  charListLe_total a.toList b.toList

theorem pyStrLe_trans (a b c : String)
    (hab : ScenarioLoader.pyStrLe a b = true)
    (hbc : ScenarioLoader.pyStrLe b c = true) :
    ScenarioLoader.pyStrLe a c = true :=
  charListLe_trans a.toList b.toList c.toList hab hbc

/-- C10: for every state of the scenarios directory, `list_scenarios` is
sorted ascending in Python's code-point string order and contains exactly
the stems of the `.yaml`/`.yml` files other than `school_dropoff_anxiety`;
hence the first listed name — the one `get_default_scenario` loads — is
never `school_dropoff_anxiety`, even when its file exists. -/
theorem list_scenarios_sorted_hides_school_dropoff (d : ScenarioDir) :
    List.Sorted (fun a b => ScenarioLoader.pyStrLe a b = true)
      (ScenarioLoader.list_scenarios d) ∧
    (∀ x, x ∈ ScenarioLoader.list_scenarios d ↔
      (d.dirExists = true ∧ x ≠ "school_dropoff_anxiety" ∧
       ∃ f ∈ d.files, ScenarioLoader.isYamlFile f = true ∧
         ScenarioLoader.splitextStem f = x)) ∧
    (∀ n, (ScenarioLoader.list_scenarios d).head? = some n →
      n ≠ "school_dropoff_anxiety") ∧
    (ScenarioLoader.get_default_scenario d =
      match (ScenarioLoader.list_scenarios d).head? with
      | some n => ScenarioLoader.load_scenario d n
      | none => none) := by
  have hmem : ∀ x, x ∈ ScenarioLoader.list_scenarios d ↔
      (d.dirExists = true ∧ x ≠ "school_dropoff_anxiety" ∧
       ∃ f ∈ d.files, ScenarioLoader.isYamlFile f = true ∧
         ScenarioLoader.splitextStem f = x) := by
    intro x
    unfold ScenarioLoader.list_scenarios
    rcases hd : d.dirExists with _ | _
    · simp
    · rw [if_pos rfl]
      rw [(List.perm_insertionSort (fun a b =>
        ScenarioLoader.pyStrLe a b = true) _).mem_iff]
      simp only [List.mem_filter, List.mem_map, decide_not,
        Bool.not_eq_eq_eq_not, Bool.not_true, decide_eq_false_iff_not]
      constructor
      · rintro ⟨⟨f, ⟨hf, hy⟩, rfl⟩, hx⟩
        exact ⟨by trivial, hx, f, hf, hy, rfl⟩
      · rintro ⟨-, hx, f, hf, hy, rfl⟩
        exact ⟨⟨f, ⟨hf, hy⟩, rfl⟩, hx⟩
  refine ⟨?_, hmem, ?_, ?_⟩
  · unfold ScenarioLoader.list_scenarios
    rcases d.dirExists with _ | _
    · simp
    · rw [if_pos rfl]
      exact @List.sorted_insertionSort String
        (fun a b => ScenarioLoader.pyStrLe a b = true) _
        ⟨pyStrLe_total⟩ ⟨pyStrLe_trans⟩ _
  · intro n hn
    have hmemn : n ∈ ScenarioLoader.list_scenarios d :=
      List.mem_of_mem_head? (by simpa using hn)
    exact ((hmem n).mp hmemn).2.1
  · rcases h : ScenarioLoader.list_scenarios d with _ | ⟨n, rest⟩ <;>
      simp [ScenarioLoader.get_default_scenario, h]

theorem list_scenarios_sorted_hides_school_dropoff_witness :
    "apple" ≠ "school_dropoff_anxiety" :=
  (list_scenarios_sorted_hides_school_dropoff schoolDir).2.2.1 "apple"
    (by decide)

end EduParent

namespace EduParent

theorem filter_length_eq_iff {α : Type} (p : α → Bool) (l : List α) :
    (l.filter p).length = l.length ↔ ∀ a ∈ l, p a = true := by
  induction l with
  | nil => simp
  | cons a l ih =>
      rcases hp : p a with _ | _
      · simp only [List.filter_cons, hp, if_neg, Bool.false_eq_true,
          not_false_eq_true, List.length_cons]
        constructor
        · intro h
          exact absurd h (by have := List.length_filter_le p l; omega)
        · intro h
          exact absurd (h a (List.mem_cons_self a l)) (by simp [hp])
      · simp only [List.filter_cons, hp, List.length_cons, if_pos,
          Nat.add_right_cancel_iff]
        rw [ih]
        constructor
        · intro h b hb
          rcases List.mem_cons.mp hb with rfl | hb
          · exact hp
          · exact h b hb
        · intro h b hb
          exact h b (List.mem_cons_of_mem a hb)

/-- C5: the `ScenarioCompletion` computed when the final round resolves has
`overall_score` the mean of `total_score` over exactly the passed
`RoundResult`s (0 when none passed), `mastery_achieved` iff
`rounds_passed = total_rounds`, the `scenario_mastery` badge awarded exactly
when every resolved round passed (given the full `max_rounds`-length
history of a final-round resolution), and the `expert_communicator` badge
awarded exactly when the mean is at least 9. -/
theorem scenario_completion_mean_mastery_badges
    (gs : GameState) (scenario : Scenario) :
    ((gs.round_history.filter (fun r => r.evaluation.passed)).length = 0 →
      (RoleplayGameEngine.create_scenario_completion gs
        scenario).overall_score = 0) ∧
    ((gs.round_history.filter (fun r => r.evaluation.passed)).length ≠ 0 →
      (RoleplayGameEngine.create_scenario_completion gs
          scenario).overall_score =
        (((gs.round_history.filter (fun r => r.evaluation.passed)).map
            (fun r => r.evaluation.total_score)).sum : Rat) /
          ((gs.round_history.filter
            (fun r => r.evaluation.passed)).length : Rat)) ∧
    ((RoleplayGameEngine.create_scenario_completion gs
        scenario).mastery_achieved = true ↔
      (RoleplayGameEngine.create_scenario_completion gs
        scenario).rounds_passed =
      (RoleplayGameEngine.create_scenario_completion gs
        scenario).total_rounds) ∧
    ("scenario_mastery" ∈ (RoleplayGameEngine.create_scenario_completion gs
        scenario).badges_earned ↔
      (gs.round_history.filter (fun r => r.evaluation.passed)).length =
        gs.max_rounds) ∧
    ("expert_communicator" ∈ (RoleplayGameEngine.create_scenario_completion
        gs scenario).badges_earned ↔
      9 ≤ (RoleplayGameEngine.create_scenario_completion gs
        scenario).overall_score) ∧
    (gs.round_history.length = gs.max_rounds →
      ("scenario_mastery" ∈ (RoleplayGameEngine.create_scenario_completion
          gs scenario).badges_earned ↔
        ∀ r ∈ gs.round_history, r.evaluation.passed = true)) := by
  set ps := gs.round_history.filter (fun r => r.evaluation.passed) with hps
  have hbm : "scenario_mastery" ∈ (RoleplayGameEngine.create_scenario_completion
      gs scenario).badges_earned ↔ ps.length = gs.max_rounds := by
    simp only [RoleplayGameEngine.create_scenario_completion, ← hps,
      List.mem_append]
    constructor
    · rintro (h | h) <;> split at h <;> simp_all
    · intro h
      left
      simp [h]
  refine ⟨?_, ?_, ?_, hbm, ?_, ?_⟩
  · intro h
    simp [RoleplayGameEngine.create_scenario_completion, ← hps, h]
  · intro h
    simp only [RoleplayGameEngine.create_scenario_completion, ← hps]
    rw [if_pos (Nat.pos_of_ne_zero h)]
  · simp [RoleplayGameEngine.create_scenario_completion, ← hps]
  · simp only [RoleplayGameEngine.create_scenario_completion, ← hps,
      List.mem_append]
    constructor
    · rintro (h | h) <;> split at h <;> simp_all
    · intro h
      right
      simp [h]
  · intro hfull
    rw [hbm, ← hfull, hps]
    exact filter_length_eq_iff _ _

/-- Witness for C5 on a finished two-round history with one passed round of
score 9: the mean is 9/1 and the mastery badge tracks "all rounds passed". -/
theorem scenario_completion_mean_mastery_badges_witness :
    (("scenario_mastery" ∈ (RoleplayGameEngine.create_scenario_completion
        gsHist scAlpha).badges_earned ↔
      ∀ r ∈ gsHist.round_history, r.evaluation.passed = true)) ∧
    ((RoleplayGameEngine.create_scenario_completion gsHist
        scAlpha).overall_score =
      (((gsHist.round_history.filter (fun r => r.evaluation.passed)).map
          (fun r => r.evaluation.total_score)).sum : Rat) /
        ((gsHist.round_history.filter
          (fun r => r.evaluation.passed)).length : Rat)) :=
  ⟨(scenario_completion_mean_mastery_badges gsHist scAlpha).2.2.2.2.2
      (by decide),
   (scenario_completion_mean_mastery_badges gsHist scAlpha).2.1
      (by decide)⟩

end EduParent

namespace EduParent

/-- C7: for a single-round session that is not yet completed, a submission
increments `attempts`; the session transitions to `Completed` exactly when
the evaluation passed or the incremented `attempts` reached `max_attempts`;
`final_score` is set to the evaluation's `total_score` when it passed and is
left unset (`None`) when the session completes by attempt exhaustion
without a pass. -/
theorem single_round_submit_transitions
    (d : ScenarioDir) (o : SubmitOracle) (gs : GameState)
    (parent_response : String)
    (hm : gs.is_multi_round = false) (hc : gs.game_completed = false) :
    (RoleplayGameEngine.process_parent_response d o gs
        parent_response).attempts = gs.attempts + 1 ∧
    ((RoleplayGameEngine.process_parent_response d o gs
        parent_response).game_completed = true ↔
      ((EvaluationAgent.evaluate o.srEval gs.language).passed = true ∨
       gs.max_attempts ≤ gs.attempts + 1)) ∧
    ((EvaluationAgent.evaluate o.srEval gs.language).passed = true →
      (RoleplayGameEngine.process_parent_response d o gs
        parent_response).final_score =
      some (EvaluationAgent.evaluate o.srEval gs.language).total_score) ∧
    ((EvaluationAgent.evaluate o.srEval gs.language).passed = false →
      (RoleplayGameEngine.process_parent_response d o gs
          parent_response).game_completed = true →
      (RoleplayGameEngine.process_parent_response d o gs
        parent_response).final_score = none) := by
  unfold RoleplayGameEngine.process_parent_response
    RoleplayGameEngine.process_single_round_response
    GameState.increment_attempt GameState.can_retry GameState.complete_game
  by_cases hp : (EvaluationAgent.evaluate o.srEval gs.language).passed = true
  all_goals by_cases hlt : gs.attempts + 1 < gs.max_attempts
  all_goals simp only [hm, hc]
  all_goals
    rcases hload : ScenarioLoader.load_scenario d
        (RoleplayGameEngine.scenario_name_for_title gs.scenario_title) with
      _ | sc
  all_goals simp [hload, hp, hlt, hc]
  all_goals omega

/-- Witness for C7: a fresh Alpha session with a failing evaluation — the
attempt counter moves to 1, the session stays live, nothing passes. -/
theorem single_round_submit_transitions_witness :
    ((RoleplayGameEngine.process_parent_response alphaDir oFail gsAlpha
        "hi").attempts = gsAlpha.attempts + 1 ∧
    ((RoleplayGameEngine.process_parent_response alphaDir oFail gsAlpha
        "hi").game_completed = true ↔
      ((EvaluationAgent.evaluate oFail.srEval gsAlpha.language).passed =
        true ∨ gsAlpha.max_attempts ≤ gsAlpha.attempts + 1)) ∧
    ((EvaluationAgent.evaluate oFail.srEval gsAlpha.language).passed =
        true →
      (RoleplayGameEngine.process_parent_response alphaDir oFail gsAlpha
        "hi").final_score =
      some (EvaluationAgent.evaluate oFail.srEval
        gsAlpha.language).total_score) ∧
    ((EvaluationAgent.evaluate oFail.srEval gsAlpha.language).passed =
        false →
      (RoleplayGameEngine.process_parent_response alphaDir oFail gsAlpha
          "hi").game_completed = true →
      (RoleplayGameEngine.process_parent_response alphaDir oFail gsAlpha
        "hi").final_score = none)) :=
  single_round_submit_transitions alphaDir oFail gsAlpha "hi"
    (by decide) (by decide)

end EduParent

namespace EduParent

theorem strong_attempt_step
    (d : ScenarioDir) (o : SubmitOracle) (gs : GameState) (pr : String)
    (h : StrongAttemptInv gs) (hc : gs.game_completed = false)
    (hok : roundDataOk d gs) :
    StrongAttemptInv (RoleplayGameEngine.process_parent_response d o gs pr) := by
  obtain ⟨⟨h1, h2⟩, hk1, hk2, hlive⟩ := h
  obtain ⟨hra, hat⟩ := hlive hc
  unfold StrongAttemptInv AttemptCapsInv
  rcases hmulti : gs.is_multi_round with _ | _
  · -- single-round state: the single path runs whatever the store answers
    unfold RoleplayGameEngine.process_parent_response
      RoleplayGameEngine.process_single_round_response
      GameState.increment_attempt GameState.can_retry GameState.complete_game
    by_cases hp : (EvaluationAgent.evaluate o.srEval gs.language).passed = true
    all_goals by_cases hlt : gs.attempts + 1 < gs.max_attempts
    all_goals simp only [hmulti, hc]
    all_goals
      rcases hload : ScenarioLoader.load_scenario d
          (RoleplayGameEngine.scenario_name_for_title gs.scenario_title) with
        _ | sc
    all_goals simp [hload, hp, hlt, hc]
    all_goals omega
  · unfold RoleplayGameEngine.process_parent_response
      GameState.increment_attempt
    simp only [hmulti, if_true]
    rcases hload : ScenarioLoader.load_scenario d
        (RoleplayGameEngine.scenario_name_for_title gs.scenario_title) with
      _ | sc
    · -- failed lookup: fallback single path on a multi-round state
      unfold RoleplayGameEngine.process_single_round_response
        GameState.can_retry GameState.complete_game
      by_cases hp : (EvaluationAgent.evaluate o.srEval gs.language).passed = true
      all_goals by_cases hlt :
        gs.round_attempts + 1 < gs.max_round_attempts
      all_goals simp [hload, hmulti, hc, hp, hlt]
      all_goals omega
    · -- multi-round path
      simp only [hload, hmulti, if_true]
      unfold RoleplayGameEngine.process_multi_round_response
      rcases hrd : sc.get_round_data gs.current_round with _ | rd
      · exact absurd hrd (hok hmulti sc hload)
      · simp only [hrd]
        unfold GameState.advance_to_next_round GameState.complete_game
        by_cases hep : (EvaluationAgent.evaluate_multi_round o.mrEval
            rd.evaluation_criteria rd.pass_threshold gs.current_round
            gs.language).passed = true
        all_goals by_cases hge :
          gs.round_attempts + 1 ≥ gs.max_round_attempts
        all_goals by_cases hfin : gs.current_round ≥ gs.max_rounds
        all_goals by_cases hflt : gs.current_round < gs.max_rounds
        all_goals simp [hep, hge, hfin, hflt, hmulti, hc]
        all_goals omega

end EduParent

namespace EduParent

/-- C2 amended: freshly created sessions satisfy the strengthened attempt
invariant; after any number of public submissions in which every multi-round
submission finds round data for its current round (the silent early-return
of `_process_multi_round_response` is never taken), `round_attempts ≤
max_round_attempts` and `attempts ≤ max_attempts` hold; and a multi-round
submission whose incremented `round_attempts` reaches `max_round_attempts`
resolves the round — appends exactly one entry to `round_history` — rather
than retrying, whether or not it passed. -/
theorem submit_attempt_caps_amended :
    (∀ (d : ScenarioDir) (nm : Option String) (lang : String)
       (gs : GameState),
      RoleplayGameEngine.create_game_state d nm lang = some gs →
        StrongAttemptInv gs) ∧
    (∀ (d : ScenarioDir) (steps : List (SubmitOracle × String))
       (gs0 : GameState),
      StrongAttemptInv gs0 →
      (∀ n : Nat, roundDataOk d (runSubmits d (steps.take n) gs0)) →
      AttemptCapsInv (runSubmits d steps gs0)) ∧
    (∀ (d : ScenarioDir) (o : SubmitOracle) (gs : GameState) (pr : String)
       (sc : Scenario) (rd : RoundData),
      gs.is_multi_round = true → gs.game_completed = false →
      ScenarioLoader.load_scenario d
        (RoleplayGameEngine.scenario_name_for_title gs.scenario_title) =
          some sc →
      sc.get_round_data gs.current_round = some rd →
      gs.max_round_attempts ≤ gs.round_attempts + 1 →
      (RoleplayGameEngine.process_parent_response d o gs
        pr).round_history.length = gs.round_history.length + 1) := by
  refine ⟨?_, ?_, ?_⟩
  · intro d nm lang gs hgc
    unfold RoleplayGameEngine.create_game_state at hgc
    rcases hsc : (if nm.getD "" ≠ "" then
        ScenarioLoader.load_scenario d (nm.getD "")
      else ScenarioLoader.get_default_scenario d) with _ | scn
    · rw [hsc] at hgc
      cases hgc
    · rw [hsc] at hgc
      simp only [Option.some.injEq] at hgc
      subst hgc
      unfold StrongAttemptInv AttemptCapsInv GameState.default
        GameConfig.MAX_ATTEMPTS
      norm_num
  · intro d steps gs0
    induction steps generalizing gs0 with
    | nil =>
        intro h _
        exact h.1
    | cons s rest ih =>
        intro h hok
        have hstep : StrongAttemptInv (submitStep d s gs0) := by
          unfold submitStep
          rcases hcomp : gs0.game_completed with _ | _
          · simp only [hcomp, Bool.false_eq_true, if_false]
            exact strong_attempt_step d s.1 gs0 s.2 h hcomp (hok 0)
          · simpa [hcomp] using h
        have hok2 : ∀ n, roundDataOk d
            (runSubmits d (rest.take n) (submitStep d s gs0)) := by
          intro n
          have hn := hok (n + 1)
          simpa [runSubmits, List.take_succ_cons, List.foldl_cons] using hn
        have := ih (submitStep d s gs0) hstep hok2
        simpa [runSubmits, List.foldl_cons] using this
  · intro d o gs pr sc rd hmulti hc hload hrd hge
    unfold RoleplayGameEngine.process_parent_response
      GameState.increment_attempt
    simp only [hmulti, if_true, hload]
    unfold RoleplayGameEngine.process_multi_round_response
    simp only [hrd]
    by_cases hfin : gs.current_round ≥ gs.max_rounds
    all_goals by_cases hflt : gs.current_round < gs.max_rounds
    all_goals simp [hge, hfin, hflt, hmulti,
      GameState.advance_to_next_round, GameState.complete_game]

/-- Witness for C2's amended theorem: two failing submissions against a
fresh single-round Alpha session keep both counters within their caps. -/
theorem submit_attempt_caps_amended_witness :
    AttemptCapsInv (runSubmits alphaDir [(oFail, "a"), (oFail, "b")]
      gsAlpha) := by
  apply submit_attempt_caps_amended.2.1 alphaDir [(oFail, "a"), (oFail, "b")]
    gsAlpha
  · unfold StrongAttemptInv AttemptCapsInv
    decide
  · intro n
    unfold roundDataOk
    intro hm
    rcases n with _ | _ | n
    · exact absurd hm (by decide)
    · exact absurd hm (by decide)
    · rw [show ([(oFail, "a"), (oFail, "b")].take (n + 2)) =
          [(oFail, "a"), (oFail, "b")] from by
        simp [List.take_succ_cons]] at hm
      exact absurd hm (by decide)

/-- C2 counterexample: the loadable scenario `weirdScenario`
(`multi_round: true` with an empty round list) creates a session with
`max_rounds = 0`; every submission then takes the silent early-return of
`_process_multi_round_response` after incrementing `round_attempts`, so
after four submissions through the public submit operation the session has
`round_attempts = 4 > 3 = max_round_attempts` and is still not completed. -/
theorem submit_attempt_caps_cex :
    RoleplayGameEngine.create_game_state weirdDir (some "weird_one") "en" =
      some weirdStart ∧
    (runSubmits weirdDir (List.replicate 4 (oFail, "hi"))
      weirdStart).game_completed = false ∧
    (runSubmits weirdDir (List.replicate 4 (oFail, "hi"))
      weirdStart).round_attempts = 4 ∧
    (runSubmits weirdDir (List.replicate 4 (oFail, "hi"))
      weirdStart).max_round_attempts = 3 :=
  ⟨by decide, by decide, by decide, by decide⟩

end EduParent

namespace EduParent

theorem RoundHistoryInv.mono {gs gs' : GameState}
    (h : RoundHistoryInv gs)
    (hcr : gs'.current_round = gs.current_round)
    (hmr : gs'.max_rounds = gs.max_rounds)
    (hh : gs'.round_history = gs.round_history)
    (himp : gs'.game_completed = false → gs.game_completed = false) :
    RoundHistoryInv gs' := by
  obtain ⟨h1, h2, h3, h4, h5, h6⟩ := h
  refine ⟨hcr ▸ h1, ?_, hh ▸ h3, ?_, ?_, ?_⟩
  · rw [hcr, hmr]; exact h2
  · intro hc
    rw [hh, hcr]
    exact h4 (himp hc)
  · rw [hh, hmr]; exact h5
  · intro hc
    rw [hh, hcr]
    exact h6 (himp hc)

theorem single_round_fields (o : SubmitOracle) (g : GameState) :
    (RoleplayGameEngine.process_single_round_response o g).round_history =
      g.round_history ∧
    (RoleplayGameEngine.process_single_round_response o g).current_round =
      g.current_round ∧
    (RoleplayGameEngine.process_single_round_response o g).max_rounds =
      g.max_rounds ∧
    ((RoleplayGameEngine.process_single_round_response o g).game_completed =
        false → g.game_completed = false) := by
  unfold RoleplayGameEngine.process_single_round_response
    GameState.complete_game
  by_cases hp : (EvaluationAgent.evaluate o.srEval g.language).passed = true
  · simp [hp]
  · simp only [hp, Bool.false_eq_true, if_false]
    split
    · simp
    · simp

theorem sorted_lt_append_singleton {l : List Nat} {x : Nat}
    (hs : List.Sorted (· < ·) l) (hall : ∀ y ∈ l, y < x) :
    List.Sorted (· < ·) (l ++ [x]) := by
  rw [List.Sorted, List.pairwise_append]
  exact ⟨hs, List.pairwise_singleton _ _, fun a ha b hb => by
    rw [List.mem_singleton.mp hb]; exact hall a ha⟩

end EduParent

namespace EduParent

theorem single_path_keeps_inv (o : SubmitOracle) (g : GameState)
    (h : RoundHistoryInv g) :
    RoundHistoryInv (RoleplayGameEngine.process_single_round_response o g) ∧
    (RoleplayGameEngine.process_single_round_response o g).max_rounds =
      g.max_rounds ∧
    (RoleplayGameEngine.process_single_round_response o g).round_history =
      g.round_history := by
  obtain ⟨f1, f2, f3, f4⟩ := single_round_fields o g
  exact ⟨RoundHistoryInv.mono h f2 f3 f1 f4, f3, f1⟩

theorem round_history_step (d : ScenarioDir) (s : SubmitOracle × String)
    (gs : GameState) (h : RoundHistoryInv gs) :
    RoundHistoryInv (submitStep d s gs) ∧
    (submitStep d s gs).max_rounds = gs.max_rounds ∧
    ((submitStep d s gs).round_history = gs.round_history ∨
      ∃ rr : RoundResult, rr.round_number = gs.current_round ∧
        (submitStep d s gs).round_history = gs.round_history ++ [rr]) := by
  unfold submitStep
  rcases hcomp : gs.game_completed with _ | _
  case true =>
    rw [if_pos rfl]
    exact ⟨h, rfl, Or.inl rfl⟩
  case false =>
  simp only [Bool.false_eq_true, if_false]
  unfold RoleplayGameEngine.process_parent_response
    GameState.increment_attempt
  rcases hmulti : gs.is_multi_round with _ | _
  case false =>
    simp only [Bool.false_eq_true, if_false]
    have hR : RoundHistoryInv
        { gs with parent_response := s.2, attempts := gs.attempts + 1,
                  is_multi_round := false } :=
      RoundHistoryInv.mono h rfl rfl rfl (fun hc => hc)
    rcases hload : ScenarioLoader.load_scenario d
        (RoleplayGameEngine.scenario_name_for_title gs.scenario_title) with
      _ | sc
    · simp only [hload]
      obtain ⟨i1, i2, i3⟩ := single_path_keeps_inv s.1 _ hR
      exact ⟨i1, i2, Or.inl i3⟩
    · simp only [hload, Bool.false_eq_true, if_false]
      obtain ⟨i1, i2, i3⟩ := single_path_keeps_inv s.1 _ hR
      exact ⟨i1, i2, Or.inl i3⟩
  case true =>
  simp only [if_true]
  have hR : RoundHistoryInv
      { gs with parent_response := s.2,
                round_attempts := gs.round_attempts + 1,
                is_multi_round := true } :=
    RoundHistoryInv.mono h rfl rfl rfl (fun hc => hc)
  rcases hload : ScenarioLoader.load_scenario d
      (RoleplayGameEngine.scenario_name_for_title gs.scenario_title) with
    _ | sc
  · simp only [hload]
    obtain ⟨i1, i2, i3⟩ := single_path_keeps_inv s.1 _ hR
    exact ⟨i1, i2, Or.inl i3⟩
  · simp only [hload, if_true]
    unfold RoleplayGameEngine.process_multi_round_response
    rcases hrd : sc.get_round_data gs.current_round with _ | rd
    · simp only [hrd]
      exact ⟨hR, trivial, Or.inl trivial⟩
    · simp only [hrd]
      obtain ⟨h1, h2, h3, h4, h5, h6⟩ := h
      have hbelow := h4 hcomp
      have hlen := h6 hcomp
      by_cases hres : ((EvaluationAgent.evaluate_multi_round s.1.mrEval
          rd.evaluation_criteria rd.pass_threshold gs.current_round
          gs.language).passed ||
            gs.round_attempts + 1 ≥ gs.max_round_attempts) = true
      · simp only [hres, if_true]
        have hsorted : List.Sorted (· < ·)
            ((gs.round_history.map RoundResult.round_number) ++
              [gs.current_round]) :=
          sorted_lt_append_singleton h3 (fun y hy => by
            obtain ⟨r, hr, rfl⟩ := List.mem_map.mp hy
            exact hbelow r hr)
        by_cases hfin : gs.current_round ≥ gs.max_rounds
        · simp only [hfin, if_true, GameState.complete_game]
          refine ⟨⟨h1, h2, ?_, ?_, ?_, ?_⟩, trivial, Or.inr ⟨_, rfl, rfl⟩⟩
          · simpa [List.map_append] using hsorted
          · intro hx; exact Bool.noConfusion hx
          · simp only [List.length_append, List.length_singleton]
            omega
          · intro hx; exact Bool.noConfusion hx
        · have hflt : gs.current_round < gs.max_rounds := by omega
          rw [if_neg hfin]
          simp only [GameState.advance_to_next_round, Bool.true_and,
            decide_eq_true_eq, hflt, if_true, eq_self_iff_true]
          refine ⟨⟨?_, ?_, ?_, ?_, ?_, ?_⟩, trivial, Or.inr ⟨_, rfl, rfl⟩⟩
          · show 1 ≤ gs.current_round + 1
            omega
          · show gs.current_round + 1 ≤ gs.max_rounds
            omega
          · simpa [List.map_append] using hsorted
          · intro _ r hr
            rcases List.mem_append.mp hr with hr | hr
            · exact Nat.lt_succ_of_lt (hbelow r hr)
            · rw [List.mem_singleton.mp hr]
              exact Nat.lt_succ_self _
          · simp only [List.length_append, List.length_singleton]
            omega
          · intro _
            simp only [List.length_append, List.length_singleton]
            omega
      · simp only [hres, Bool.false_eq_true, if_false]
        refine ⟨RoundHistoryInv.mono ⟨h1, h2, h3, h4, h5, h6⟩ rfl rfl rfl
          (fun hc => hc), trivial, Or.inl trivial⟩

end EduParent

namespace EduParent

theorem round_history_run (d : ScenarioDir)
    (steps : List (SubmitOracle × String)) (gs0 : GameState)
    (h : RoundHistoryInv gs0) :
    RoundHistoryInv (runSubmits d steps gs0) ∧
    (runSubmits d steps gs0).max_rounds = gs0.max_rounds := by
  induction steps generalizing gs0 with
  | nil => exact ⟨h, rfl⟩
  | cons s rest ih =>
      obtain ⟨hs, hmr, -⟩ := round_history_step d s gs0 h
      obtain ⟨ha, hb⟩ := ih (submitStep d s gs0) hs
      exact ⟨ha, hb.trans hmr⟩

/-- C3: a multi-round session freshly created from a scenario with at least
one round satisfies the round-history invariant; after any number of public
submissions the `round_number`s of `round_history` are strictly increasing
(no duplicates) and its length never exceeds `max_rounds`; and each
submission either leaves `round_history` unchanged or appends exactly one
entry, carrying the pre-submission `current_round` — so the history only
grows, one entry per resolved round. -/
theorem round_history_monotone_bounded :
    (∀ (d : ScenarioDir) (nm : Option String) (lang : String)
       (gs : GameState),
      RoleplayGameEngine.create_game_state d nm lang = some gs →
      1 ≤ gs.max_rounds → RoundHistoryInv gs) ∧
    (∀ (d : ScenarioDir) (steps : List (SubmitOracle × String))
       (gs0 : GameState),
      RoundHistoryInv gs0 →
      List.Sorted (· < ·)
        ((runSubmits d steps gs0).round_history.map
          RoundResult.round_number) ∧
      (runSubmits d steps gs0).round_history.length ≤ gs0.max_rounds) ∧
    (∀ (d : ScenarioDir) (steps : List (SubmitOracle × String))
       (gs0 : GameState) (n : Nat),
      RoundHistoryInv gs0 →
      ((runSubmits d (steps.take (n + 1)) gs0).round_history =
          (runSubmits d (steps.take n) gs0).round_history ∨
        ∃ rr : RoundResult,
          rr.round_number = (runSubmits d (steps.take n) gs0).current_round ∧
          (runSubmits d (steps.take (n + 1)) gs0).round_history =
            (runSubmits d (steps.take n) gs0).round_history ++ [rr])) := by
  refine ⟨?_, ?_, ?_⟩
  · intro d nm lang gs hgc hmx
    unfold RoleplayGameEngine.create_game_state at hgc
    rcases hsc : (if nm.getD "" ≠ "" then
        ScenarioLoader.load_scenario d (nm.getD "")
      else ScenarioLoader.get_default_scenario d) with _ | scn
    · rw [hsc] at hgc
      cases hgc
    · rw [hsc] at hgc
      simp only [Option.some.injEq] at hgc
      subst hgc
      refine ⟨le_refl 1, hmx, List.sorted_nil, ?_, Nat.zero_le _, ?_⟩
      · intro _ r hr
        exact absurd hr (List.not_mem_nil r)
      · intro _
        exact le_refl 1
  · intro d steps gs0 h0
    obtain ⟨hinv, hmr⟩ := round_history_run d steps gs0 h0
    exact ⟨hinv.2.2.1, hmr ▸ hinv.2.2.2.2.1⟩
  · intro d steps gs0 n h0
    rcases hget : steps[n]? with _ | s
    · have hlen : steps.length ≤ n := by
        by_contra hlt
        rw [List.getElem?_eq_none_iff] at hget
        omega
      rw [List.take_of_length_le (by omega), List.take_of_length_le hlen]
      exact Or.inl rfl
    · have htake : steps.take (n + 1) = steps.take n ++ [s] := by
        rw [List.take_succ, hget]
        rfl
      have hrun : runSubmits d (steps.take (n + 1)) gs0 =
          submitStep d s (runSubmits d (steps.take n) gs0) := by
        rw [htake]
        simp [runSubmits, List.foldl_append]
      have hinv := (round_history_run d (steps.take n) gs0 h0).1
      obtain ⟨-, -, hg⟩ :=
        round_history_step d s (runSubmits d (steps.take n) gs0) hinv
      rw [hrun]
      exact hg

/-- Witness for C3: one passing submission against the two-round Messy Room
session resolves round 1, and the invariants hold on the resulting
history. -/
theorem round_history_monotone_bounded_witness :
    List.Sorted (· < ·)
      ((runSubmits multiDir [(oPass, "hi")] gsMulti).round_history.map
        RoundResult.round_number) ∧
    (runSubmits multiDir [(oPass, "hi")] gsMulti).round_history.length ≤
      gsMulti.max_rounds :=
  round_history_monotone_bounded.2.1 multiDir [(oPass, "hi")] gsMulti
    (round_history_monotone_bounded.1 multiDir (some "messy_room") "en"
      gsMulti (by decide) (by decide))

end EduParent
